import Mathlib

/-!
Verification of the CLIProxyAPIPlus request-adaptation and dispatch core:
a shallow embedding of the thinking-adaptation engine, the usage reporter,
the proxy-aware HTTP client factory, the upstream-timeout configuration and
the timeout classifier, together with theorems settling the frozen claims.

Go integers are embedded as `Int`, Go strings as `String`, Go maps as
association lists with explicit state passing, and fallible Go code as
`Except`/`Option` results.
-/

namespace CLIProxy

/-- Whitespace predicate used by the trim model (ASCII whitespace). -/
def isSpaceChar (c : Char) : Bool :=
  c = ' ' || c = '\t' || c = '\n' || c = '\r'

/-- Model of Go `strings.TrimSpace` (leading and trailing whitespace removed);
implemented on the character list so that it reduces in the kernel. -/
def strTrim (s : String) : String :=
  String.mk (((s.data.dropWhile isSpaceChar).reverse.dropWhile isSpaceChar).reverse)

/-- Model of Go `strings.ToLower` (character-wise lowercasing). -/
def strToLower (s : String) : String := String.mk (s.data.map Char.toLower)

/-- Normalisation used throughout the thinking package: lowercase the trimmed string. -/
def normalizeLevel (s : String) : String := strToLower (strTrim s)

/-- Tests whether `pat` occurs as a leading block of some tail of the list. -/
def listContainsSub (pat : List Char) : List Char → Bool
  | [] => pat.isEmpty
  | c :: rest => pat.isPrefixOf (c :: rest) || listContainsSub pat rest

/-- Model of Go `strings.Contains s pat`: `pat` occurs as a contiguous substring of `s`. -/
def containsStr (s pat : String) : Bool := listContainsSub pat.toList s.toList

/-! ## internal/thinking: adaptation meta (embedded from `buildAdaptationMeta` in src) -/

/-- Decision constant: no explicit thinking variant was requested. -/
def AdaptationDecisionNone : String := "none"

/-- Decision constant: requested variant was preserved. -/
def AdaptationDecisionPass : String := "pass"

/-- Decision constant: requested variant was changed or removed. -/
def AdaptationDecisionDowngrade : String := "downgrade"

/-- Structure `AdaptationMeta` describes how requested thinking strength was adapted. -/
structure AdaptationMeta where
  VariantOrigin : String
  Variant : String
  Decision : String
  Reason : String
  deriving DecidableEq, Repr

/-- Embedding of `buildAdaptationMeta` (src/unnamed/part_001, lines 41-60):
normalises origin and resolved, then picks the decision
none / pass / downgrade with the corresponding default reason. -/
def buildAdaptationMeta (origin resolved reason : String) : AdaptationMeta :=
  let origin := normalizeLevel origin
  let resolved := normalizeLevel resolved
  if origin = "" ∧ resolved = "" then
    { VariantOrigin := "", Variant := "", Decision := AdaptationDecisionNone,
      Reason := if reason = "" then "no_explicit_variant" else reason }
  else if origin ≠ "" ∧ resolved ≠ "" ∧ origin = resolved then
    { VariantOrigin := origin, Variant := resolved, Decision := AdaptationDecisionPass,
      Reason := if reason = "" then "preserved" else reason }
  else
    { VariantOrigin := origin, Variant := resolved, Decision := AdaptationDecisionDowngrade,
      Reason := if reason = "" then "unsupported_by_model" else reason }

/-! ## internal/thinking: thinking config (src/unnamed/part_001, lines 22-39) -/

/-- Thinking mode tag. The Go mode constants `ModeLevel`, `ModeNone`, `ModeAuto`
and `ModeBudget` are the four cases switched on by `variantFromConfig`; every
other mode value falls into the switch default, modelled by `modeOther`. -/
inductive ThinkingMode where
  | modeLevel
  | modeNone
  | modeAuto
  | modeBudget
  | modeOther
  deriving DecidableEq, Repr

/-- Canonical representation of reasoning effort: mode, level and budget. -/
structure ThinkingConfig where
  Mode : ThinkingMode
  Level : String := ""
  Budget : Int := 0
  deriving DecidableEq, Repr

/-- Modelled from the spec: `ConvertBudgetToLevel` is not under src/; the spec
fixes provider-agnostic bands `b=0 → none`, `0<b≤1024 → low`,
`1024<b≤4096 → medium`, `4096<b≤16384 → high`, `b>16384 → xhigh`, and leaves
other budgets unresolved. -/
def ConvertBudgetToLevel (b : Int) : Option String :=
  if b = 0 then some "none"
  else if 0 < b ∧ b ≤ 1024 then some "low"
  else if 1024 < b ∧ b ≤ 4096 then some "medium"
  else if 4096 < b ∧ b ≤ 16384 then some "high"
  else if b > 16384 then some "xhigh"
  else none

/-- Embedding of `variantFromConfig` (src/unnamed/part_001, lines 22-39):
switch on the config mode; `LevelNone = "none"` and `LevelAuto = "auto"` are
inlined as their string values. -/
def variantFromConfig (config : ThinkingConfig) : String :=
  match config.Mode with
  | .modeLevel => strToLower (strTrim config.Level)
  | .modeNone =>
    if config.Level ≠ "" then strToLower (strTrim config.Level) else "none"
  | .modeAuto => "auto"
  | .modeBudget =>
    match ConvertBudgetToLevel config.Budget with
    | some level => strToLower (strTrim level)
    | none => ""
  | .modeOther => ""

/-! ## Thinking adaptation engine (spec-modelled)

The engine `ApplyThinkingWithMeta`, the variant parser `ParseSuffix` and the
model registry types are not under src/ (only their tests are); they are
modelled from the spec (§3, §4.B, §4.E) for the OpenAI payload shape. -/

/-- Modelled from the spec: `ThinkingSupport`, a model's advertised thinking
capabilities (§3 Model Capability Descriptor). -/
structure ThinkingSupport where
  Levels : List String
  ZeroAllowed : Bool := false
  DynamicAllowed : Bool := false
  deriving DecidableEq, Repr

/-- Modelled from the spec: a registry model capability descriptor. -/
structure ModelInfo where
  ID : String
  UserDefined : Bool := false
  Thinking : Option ThinkingSupport := none
  deriving DecidableEq, Repr

/-- Modelled from the spec: an OpenAI Chat Completions payload, restricted to
the fields the engine reads and writes (`model`, `reasoning_effort`); the
message list does not affect adaptation and is carried opaquely. -/
structure OpenAIPayload where
  model : String
  reasoningEffort : Option String := none
  messages : List String := []
  deriving DecidableEq, Repr

/-- Result of the variant parser: base model name and optional level. -/
structure ParsedModel where
  ModelName : String
  Level : Option String := none
  deriving DecidableEq, Repr

/-- Splits a character list at its last `'('`, returning the part before and
the part after. -/
def splitLastOpen : List Char → Option (List Char × List Char)
  | [] => none
  | c :: cs =>
    match splitLastOpen cs with
    | some (b, l) => some (c :: b, l)
    | none => if c = '(' then some ([], cs) else none

/-- Modelled from the spec: `ParseSuffix` (§4.B) — `BASE"("LEVEL")"` with LEVEL
a non-empty token of letters yields `(BASE, lowercased trimmed LEVEL)`; any
other string is returned whole with no level. The parser never errors. -/
def ParseSuffix (s : String) : ParsedModel :=
  if s.data.getLast? = some ')' then
    match splitLastOpen s.data.dropLast with
    | some (base, lvl) =>
      let level := strTrim (String.mk lvl)
      if level ≠ "" ∧ (level.data.all Char.isAlpha) then
        { ModelName := String.mk base, Level := some (strToLower level) }
      else { ModelName := s }
    | none => { ModelName := s }
  else { ModelName := s }

/-- Canonical thinking levels (§3 Data Model). -/
def canonicalLevels : List String := ["none", "low", "medium", "high", "xhigh", "auto"]

/-- Ordinal of a level in the canonical downgrade ordering
`none < low < medium < high < xhigh`; `auto` is unordered. -/
def levelOrdinal : String → Option Nat
  | "none" => some 0
  | "low" => some 1
  | "medium" => some 2
  | "high" => some 3
  | "xhigh" => some 4
  | _ => none

/-- Modelled from the spec (§4.E rule for an unsupported `xhigh`): the highest
level at most `xhigh` present in the descriptor levels — prefer `high`, else
`medium`, else `low`; empty when none of them is present. -/
def downgradeFromXHigh (levels : List String) : String :=
  if levels.contains "high" then "high"
  else if levels.contains "medium" then "medium"
  else if levels.contains "low" then "low"
  else ""

/-- The level of `levels` with the smallest ordinal (empty when none is ordered). -/
def lowestLevel (levels : List String) : String :=
  (levels.foldl
    (fun best l =>
      match levelOrdinal l, best with
      | some o, some (_, bo) => if o < bo then some (l, o) else best
      | some o, none => some (l, o)
      | none, _ => best)
    none).elim "" (·.1)

/-- The level of `levels` with the largest ordinal strictly below `bound`
(empty when none qualifies). -/
def nearestLowerLevel (levels : List String) (bound : Nat) : String :=
  (levels.foldl
    (fun best l =>
      match levelOrdinal l, best with
      | some o, some (_, bo) => if o < bound ∧ bo < o then some (l, o) else best
      | some o, none => if o < bound then some (l, o) else best
      | none, _ => best)
    none).elim "" (·.1)

/-- Modelled from the spec (§4.E step 2): the origin level of a request — the
suffix level when present, else the normalised in-payload `reasoning_effort`
(empty payload values count as absent). -/
def requestedLevel (modelWithSuffix : String) (payload : OpenAIPayload) :
    Option String :=
  match (ParseSuffix modelWithSuffix).Level with
  | some l => some l
  | none =>
    match payload.reasoningEffort with
    | some e => if normalizeLevel e = "" then none else some (normalizeLevel e)
    | none => none

/-- Writes a resolved level into an OpenAI payload (§6 output rewrites): a
non-empty level is set as `reasoning_effort`; an empty level removes it. -/
def setOpenAIEffort (payload : OpenAIPayload) (resolved : String) : OpenAIPayload :=
  if resolved = "" then { payload with reasoningEffort := none }
  else { payload with reasoningEffort := some resolved }

/-- Engine error surface (§7); only the case the claims exercise is carried. -/
inductive EngineError where
  | unknownLevel (level : String)
  deriving DecidableEq, Repr

/-- Modelled from the spec: `ApplyThinkingWithMeta` (§4.E) for from=to=openai:
parse the suffix, extract the origin level (suffix wins), look the base model
up in the registry (passed as a lookup function), resolve the level by the
spec's deterministic rules, rewrite the payload and build the meta via
`buildAdaptationMeta`. Translator dispatch is the identity for the openai
pair and payloads are already structured, so `TranslatorMissing` and
`PayloadMalformed` do not arise. -/
def ApplyThinkingWithMeta (lookup : String → Option ModelInfo)
    (payload : OpenAIPayload) (modelWithSuffix : String) :
    Except EngineError (OpenAIPayload × AdaptationMeta) :=
  let base := (ParseSuffix modelWithSuffix).ModelName
  match requestedLevel modelWithSuffix payload with
  | none => .ok (payload, buildAdaptationMeta "" "" "")
  | some origin =>
    match lookup base with
    | none => .ok (payload, buildAdaptationMeta "" "" "")
    | some info =>
      match info.Thinking with
      | none =>
        if info.UserDefined then
          if canonicalLevels.contains origin then
            .ok (setOpenAIEffort payload origin, buildAdaptationMeta origin origin "")
          else .error (.unknownLevel origin)
        else .ok (payload, buildAdaptationMeta "" "" "")
      | some ts =>
        if ts.Levels.contains origin then
          .ok (setOpenAIEffort payload origin, buildAdaptationMeta origin origin "")
        else if origin = "xhigh" then
          let resolved := downgradeFromXHigh ts.Levels
          .ok (setOpenAIEffort payload resolved,
               buildAdaptationMeta origin resolved "unsupported_by_model")
        else if origin = "none" ∧ ¬ts.ZeroAllowed then
          let resolved := lowestLevel ts.Levels
          .ok (setOpenAIEffort payload resolved,
               buildAdaptationMeta origin resolved "unsupported_by_model")
        else
          let resolved :=
            match levelOrdinal origin with
            | some o => nearestLowerLevel ts.Levels o
            | none => ""
          .ok (setOpenAIEffort payload resolved,
               buildAdaptationMeta origin resolved "unsupported_by_model")

/-! ## Usage reporter and executor shell (spec-modelled)

`newUsageReporter`, `setThinkingVariant`, `applyThinkingWithUsageMeta`, the
Kiro translation wrapper and the executors' `Execute` are not under src/ (only
their tests are); they are modelled from the spec (§4.F, §4.I, §7). -/

/-- Modelled from the spec: the published usage record, restricted to the
fields the claims constrain. -/
structure UsageRecord where
  provider : String
  model : String
  variantOrigin : String
  variant : String
  failed : Bool
  deriving DecidableEq, Repr

/-- Modelled from the spec: the per-request mutable usage reporter. -/
structure UsageReporter where
  provider : String
  model : String
  variantOrigin : String := ""
  variant : String := ""
  failed : Bool := false
  deriving DecidableEq, Repr

/-- Modelled from the spec: reporter creation at executor entry. -/
def newUsageReporter (provider model : String) : UsageReporter :=
  { provider := provider, model := model }

/-- Modelled from the spec (§4.F): `setThinkingVariant` on an optional
reporter — a nil reporter is left alone ("no reporter" is distinct from
"reporter with empty variant"), a present reporter has both fields overwritten. -/
def setThinkingVariant (rep : Option UsageReporter) (origin variant : String) :
    Option UsageReporter :=
  match rep with
  | none => none
  | some r => some { r with variantOrigin := origin, variant := variant }

/-- Modelled from the spec (§4.E errors, §4.I): the adaptation step as the
executors call it — run the engine, then capture the requested origin on the
reporter; on success the resolved variant is captured too, on error the
variant is left empty while the origin is still recorded. -/
def applyThinkingWithUsageMeta (lookup : String → Option ModelInfo)
    (payload : OpenAIPayload) (modelWithSuffix : String)
    (rep : Option UsageReporter) :
    Except EngineError OpenAIPayload × Option UsageReporter :=
  let origin := (requestedLevel modelWithSuffix payload).getD ""
  match ApplyThinkingWithMeta lookup payload modelWithSuffix with
  | .ok (payload', meta) => (.ok payload', setThinkingVariant rep origin meta.Variant)
  | .error e => (.error e, setThinkingVariant rep origin "")

/-- Modelled from the spec: the Kiro request translation with thinking meta —
the same adaptation/capture path invoked by the Kiro executor, including for
web-search follow-up calls (which pass a nil reporter). -/
def translateKiroRequestWithThinkingMeta (lookup : String → Option ModelInfo)
    (payload : OpenAIPayload) (modelWithSuffix : String)
    (rep : Option UsageReporter) :
    Except EngineError OpenAIPayload × Option UsageReporter :=
  applyThinkingWithUsageMeta lookup payload modelWithSuffix rep

/-- Modelled from the spec (§4.I, §7): an executor `Execute` — parse the
variant, create a reporter, run the adaptation step; an adaptation error
aborts before any network I/O and publishes a failed record; otherwise the
upstream outcome (supplied as data) determines whether a failed or successful
record is published. Returns the request outcome and the single published
record. -/
def Execute (lookup : String → Option ModelInfo) (provider : String)
    (modelWithSuffix : String) (payload : OpenAIPayload)
    (upstream : Except String Unit) : Except String Unit × UsageRecord :=
  let base := (ParseSuffix modelWithSuffix).ModelName
  let rep := newUsageReporter provider base
  let step := applyThinkingWithUsageMeta lookup payload modelWithSuffix (some rep)
  let r := step.2.getD rep
  let publish := fun (r : UsageReporter) =>
    { provider := r.provider, model := r.model, variantOrigin := r.variantOrigin,
      variant := r.variant, failed := r.failed : UsageRecord }
  match step.1 with
  | .error _ => (.error "adaptation failed", publish { r with failed := true })
  | .ok _ =>
    match upstream with
    | .error e => (.error e, publish { r with failed := true })
    | .ok _ => (.ok (), publish r)

/-! ## internal/config: upstream timeout configuration (embedded from src/unnamed/part_003) -/

/-- Structure `UpstreamTimeouts` holds upstream HTTP request timeout configuration (seconds). -/
structure UpstreamTimeouts where
  connectTimeoutSeconds : Int := 0
  responseHeaderTimeoutSeconds : Int := 0
  deriving DecidableEq, Repr

/-- Structure `SDKConfig`, restricted to the fields the factory and timeout accessor read. -/
structure SDKConfig where
  proxyURL : String := ""
  upstreamTimeouts : UpstreamTimeouts := {}
  deriving DecidableEq, Repr

/-- Default upstream connect timeout in seconds. -/
def DefaultConnectTimeoutSeconds : Int := 10

/-- Default upstream response-header timeout in seconds. -/
def DefaultResponseHeaderTimeoutSeconds : Int := 30

/-- Structure `InvalidTimeoutError` is returned when a timeout configuration value is invalid. -/
structure InvalidTimeoutError where
  Field : String
  Value : Int
  deriving DecidableEq, Repr

/-- Embedding of `GetUpstreamTimeouts` (src/unnamed/part_003, lines 432-457):
defaults for a nil config, negative values rejected (connect checked first)
with both returned timeouts 0, positive values adopted, zero falling back to
the default. The Go triple `(connect, responseHeader, err)` is returned as is. -/
def GetUpstreamTimeouts (cfg : Option SDKConfig) :
    Int × Int × Option InvalidTimeoutError :=
  match cfg with
  | none => (DefaultConnectTimeoutSeconds, DefaultResponseHeaderTimeoutSeconds, none)
  | some c =>
    if c.upstreamTimeouts.connectTimeoutSeconds < 0 then
      (0, 0, some { Field := "connect-timeout-seconds",
                    Value := c.upstreamTimeouts.connectTimeoutSeconds })
    else if c.upstreamTimeouts.responseHeaderTimeoutSeconds < 0 then
      (0, 0, some { Field := "response-header-timeout-seconds",
                    Value := c.upstreamTimeouts.responseHeaderTimeoutSeconds })
    else
      ((if c.upstreamTimeouts.connectTimeoutSeconds > 0 then
          c.upstreamTimeouts.connectTimeoutSeconds
        else DefaultConnectTimeoutSeconds),
       (if c.upstreamTimeouts.responseHeaderTimeoutSeconds > 0 then
          c.upstreamTimeouts.responseHeaderTimeoutSeconds
        else DefaultResponseHeaderTimeoutSeconds),
       none)

/-- The `InvalidTimeoutError.Error` message (src/unnamed/part_003, lines 465-467). -/
def InvalidTimeoutError.message (e : InvalidTimeoutError) : String :=
  "invalid timeout value for " ++ e.Field ++ ": negative values are not allowed"

/-! ## internal/runtime/executor: timeout classifier (embedded from
`IsTimeoutError` in src/internal/runtime/executor/usage_variant_test.go) -/

/-- Timeout type constant. -/
def TimeoutTypeConnect : String := "connect"

/-- Timeout type constant. -/
def TimeoutTypeResponseHeader : String := "response_header"

/-- Timeout type constant. -/
def TimeoutTypeUnknown : String := "unknown"

/-- Model of a Go `error` value as the classifier distinguishes them:
`context.DeadlineExceeded`, a `net.Error` with its `Timeout()` result and
message, or a plain error with a message. Error wrapping is not modelled, so
`errors.Is`/`errors.As` become constructor matches. -/
inductive GoError where
  | deadlineExceeded
  | netError (timeout : Bool) (msg : String)
  | plain (msg : String)
  deriving DecidableEq, Repr

/-- The Go `err.Error()` message of a modelled error. -/
def GoError.message : GoError → String
  | .deadlineExceeded => "context deadline exceeded"
  | .netError _ m => m
  | .plain m => m

/-- Model of `errors.Is(err, context.DeadlineExceeded)`. -/
def GoError.isDeadlineExceeded : GoError → Bool
  | .deadlineExceeded => true
  | _ => false

/-- Model of `errors.As(err, &netErr) && netErr.Timeout()`. -/
def GoError.isNetTimeout : GoError → Bool
  | .netError tmo _ => tmo
  | _ => false

/-- Embedding of `IsTimeoutError` (executor source, lines 555-592): nil is not a
timeout; context deadline exceeded is an unknown timeout; a timed-out net.Error
is classified by its message; otherwise any message containing "timeout" is
classified the same way; everything else is not a timeout. The message
sub-classification block is duplicated exactly as in the source. -/
def IsTimeoutError (err : Option GoError) : String × Bool :=
  match err with
  | none => ("", false)
  | some e =>
    if e.isDeadlineExceeded then (TimeoutTypeUnknown, true)
    else if e.isNetTimeout then
      let errMsg := strToLower e.message
      if containsStr errMsg "dial" || containsStr errMsg "connect" then
        (TimeoutTypeConnect, true)
      else if containsStr errMsg "response header" ||
          containsStr errMsg "awaiting response" then
        (TimeoutTypeResponseHeader, true)
      else (TimeoutTypeUnknown, true)
    else
      let errMsg := strToLower e.message
      if containsStr errMsg "timeout" then
        if containsStr errMsg "dial" || containsStr errMsg "connect" then
          (TimeoutTypeConnect, true)
        else if containsStr errMsg "response header" ||
            containsStr errMsg "awaiting response" then
          (TimeoutTypeResponseHeader, true)
        else (TimeoutTypeUnknown, true)
      else ("", false)

/-! ## internal/runtime/executor: proxy-aware HTTP client factory (embedded
from `newProxyAwareHTTPClient`, `buildDefaultTransportWithTimeouts` and
`buildProxyTransport` in src/internal/runtime/executor/usage_variant_test.go).
Go heap identity of transports is embedded as a fresh `id` drawn from a
counter threaded through the factory state; the package-level client cache is
the other component of that state. -/

/-- An `http.Transport` as the factory configures it, plus an allocation id
standing for Go pointer identity. -/
structure Transport where
  id : Nat
  proxyURL : Option String := none
  hasDialContext : Bool := false
  responseHeaderTimeout : Int := 0
  deriving DecidableEq, Repr

/-- An `http.Client`: a transport reference and an optional overall timeout
(0 meaning unset, as for Go's zero `time.Duration`). -/
structure HTTPClient where
  transport : Transport
  timeout : Int := 0
  deriving DecidableEq, Repr

/-- The package-level state: the client cache keyed by
"proxyURL|connect|responseHeader", and the next fresh transport id. -/
structure FactoryState where
  nextId : Nat := 0
  cache : List (String × HTTPClient) := []
  deriving DecidableEq, Repr

/-- Cache lookup (most recent insertion wins, matching Go map overwrite). -/
def cacheLookup (cache : List (String × HTTPClient)) (key : String) :
    Option HTTPClient :=
  match cache with
  | [] => none
  | (k, v) :: rest => if k = key then some v else cacheLookup rest key

/-- Cache insertion. -/
def cacheInsert (cache : List (String × HTTPClient)) (key : String)
    (client : HTTPClient) : List (String × HTTPClient) :=
  (key, client) :: cache

/-- Scheme/remainder split of a URL string at the first `"://"`. -/
def splitSchemeSep : List Char → Option (List Char × List Char)
  | ':' :: '/' :: '/' :: rest => some ([], rest)
  | c :: rest => (splitSchemeSep rest).map (fun p => (c :: p.1, p.2))
  | [] => none

/-- A parsed proxy URL, restricted to what the factory reads. -/
structure ParsedURL where
  scheme : String
  rest : String
  deriving DecidableEq, Repr

/-- Model of Go `url.Parse` as the factory uses it: a URL parses when it has a
non-empty alphanumeric scheme before `"://"`; `"://invalid"` (empty scheme)
fails as in Go. -/
def parseURL (s : String) : Option ParsedURL :=
  match splitSchemeSep s.toList with
  | some (schemeChars, restChars) =>
    if schemeChars ≠ [] ∧ schemeChars.all Char.isAlphanum then
      some { scheme := String.mk schemeChars, rest := String.mk restChars }
    else none
  | none => none

/-- Embedding of `buildDefaultTransportWithTimeouts` (executor source, lines
420-446): clone of the default transport with a dialer-based connect timeout
when positive and a response-header timeout when positive. Allocates a fresh
transport id. -/
def buildDefaultTransportWithTimeouts (n : Nat)
    (connectTimeoutSec responseHeaderTimeoutSec : Int) : Transport × Nat :=
  ({ id := n, proxyURL := none,
     hasDialContext := connectTimeoutSec > 0,
     responseHeaderTimeout :=
       if responseHeaderTimeoutSec > 0 then responseHeaderTimeoutSec else 0 },
   n + 1)

/-- Embedding of `buildProxyTransport` (executor source, lines 459-551): nil
for an empty or unparsable URL or an unsupported scheme; a SOCKS5 proxy always
installs a custom DialContext (with a 30s fallback connect timeout when
configured 0); an HTTP/HTTPS proxy sets the proxy function and installs a
dialer only for a positive connect timeout. Allocates a fresh transport id on
success. -/
def buildProxyTransport (n : Nat) (proxyURL : String)
    (connectTimeoutSec responseHeaderTimeoutSec : Int) : Option Transport × Nat :=
  if proxyURL = "" then (none, n)
  else
    match parseURL proxyURL with
    | none => (none, n)
    | some u =>
      let rh := if responseHeaderTimeoutSec > 0 then responseHeaderTimeoutSec else 0
      if u.scheme = "socks5" then
        (some { id := n, proxyURL := some proxyURL, hasDialContext := true,
                responseHeaderTimeout := rh }, n + 1)
      else if u.scheme = "http" ∨ u.scheme = "https" then
        (some { id := n, proxyURL := some proxyURL,
                hasDialContext := connectTimeoutSec > 0,
                responseHeaderTimeout := rh }, n + 1)
      else (none, n)

/-- Structure `config.Config`, restricted to its embedded `SDKConfig`. -/
structure Config where
  sdkConfig : SDKConfig := {}
  deriving DecidableEq, Repr

/-- Structure `cliproxyauth.Auth`, restricted to the proxy URL the factory reads. -/
structure Auth where
  proxyURL : String := ""
  deriving DecidableEq, Repr

/-- Proxy selection (factory lines 324-333): `auth.ProxyURL` first, then
`cfg.ProxyURL`, both trimmed. -/
def factoryProxyURL (cfg : Option Config) (auth : Option Auth) : String :=
  let fromAuth := match auth with | some a => strTrim a.proxyURL | none => ""
  if fromAuth = "" then
    match cfg with | some c => strTrim c.sdkConfig.proxyURL | none => ""
  else fromAuth

/-- Timeout resolution (factory lines 335-346): `GetUpstreamTimeouts`, with
an invalid configuration logged and replaced by the defaults. -/
def effectiveUpstreamTimeouts (cfg : Option Config) : Int × Int :=
  match GetUpstreamTimeouts (cfg.map (·.sdkConfig)) with
  | (c, rh, none) => (c, rh)
  | (_, _, some _) => (DefaultConnectTimeoutSeconds, DefaultResponseHeaderTimeoutSeconds)

/-- Cache key construction (factory line 353): `"proxyURL|connect|responseHeader"`. -/
def factoryCacheKey (cfg : Option Config) (auth : Option Auth) : String :=
  factoryProxyURL cfg auth ++ "|" ++ toString (effectiveUpstreamTimeouts cfg).1 ++
    "|" ++ toString (effectiveUpstreamTimeouts cfg).2

/-- The no-proxy tail of the factory (lines 391-408): build a default
transport, override it with a context round tripper when no proxy is
configured, cache and return the client. -/
def factoryFallback (st : FactoryState) (ctxRT : Option Transport)
    (proxyURL cacheKey : String) (connectTimeout responseHeaderTimeout : Int)
    (clientTimeout : Int) : HTTPClient × FactoryState :=
  let built :=
    buildDefaultTransportWithTimeouts st.nextId connectTimeout responseHeaderTimeout
  let tr :=
    if proxyURL = "" then
      match ctxRT with
      | some rt => rt
      | none => built.1
    else built.1
  let client := { transport := tr, timeout := clientTimeout : HTTPClient }
  (client, { nextId := built.2, cache := cacheInsert st.cache cacheKey client })

/-- Embedding of `newProxyAwareHTTPClient` (executor source, lines 323-409):
resolve the proxy URL and effective timeouts, look the cache key up (a hit
with a positive per-request timeout yields a thin wrapper over the cached
transport; a hit with timeout 0 yields the cached client itself); on a miss,
build a proxy transport when a proxy URL is configured, else fall back to the
default transport or the context round tripper, and cache the new client.
The context round tripper is passed as an optional transport argument. -/
def newProxyAwareHTTPClient (st : FactoryState) (ctxRT : Option Transport)
    (cfg : Option Config) (auth : Option Auth) (timeout : Int) :
    HTTPClient × FactoryState :=
  let proxyURL := factoryProxyURL cfg auth
  let connectTimeout := (effectiveUpstreamTimeouts cfg).1
  let responseHeaderTimeout := (effectiveUpstreamTimeouts cfg).2
  let cacheKey := factoryCacheKey cfg auth
  match cacheLookup st.cache cacheKey with
  | some cachedClient =>
    if timeout > 0 then
      ({ transport := cachedClient.transport, timeout := timeout }, st)
    else (cachedClient, st)
  | none =>
    let clientTimeout := if timeout > 0 then timeout else 0
    if proxyURL ≠ "" then
      match (buildProxyTransport st.nextId proxyURL connectTimeout responseHeaderTimeout).1 with
      | some tr =>
        let client := { transport := tr, timeout := clientTimeout : HTTPClient }
        (client,
         { nextId := (buildProxyTransport st.nextId proxyURL connectTimeout
             responseHeaderTimeout).2,
           cache := cacheInsert st.cache cacheKey client })
      | none =>
        factoryFallback st ctxRT proxyURL cacheKey connectTimeout
          responseHeaderTimeout clientTimeout
    else
      factoryFallback st ctxRT proxyURL cacheKey connectTimeout
        responseHeaderTimeout clientTimeout

end CLIProxy

/-- C8: `IsTimeoutError` is total and satisfies: nil yields `("", false)`; an
error matching context.DeadlineExceeded yields `("unknown", true)`; a net.Error
whose Timeout() is true, and otherwise any error whose lowercased message
contains "timeout", is classified by its lowercased message: "dial" or
"connect" gives `("connect", true)`, "response header" or "awaiting response"
gives `("response_header", true)`, else `("unknown", true)`; every other error
yields `("", false)`. -/
theorem isTimeoutError_classification (err : Option CLIProxy.GoError) :
    CLIProxy.IsTimeoutError err =
      match err with
      | none => ("", false)
      | some .deadlineExceeded => ("unknown", true)
      | some e =>
        let msg := CLIProxy.strToLower e.message
        if (match e with | .netError tmo _ => tmo | _ => false) ||
            CLIProxy.containsStr msg "timeout" then
          (if CLIProxy.containsStr msg "dial" || CLIProxy.containsStr msg "connect" then
             "connect"
           else if CLIProxy.containsStr msg "response header" ||
               CLIProxy.containsStr msg "awaiting response" then
             "response_header"
           else "unknown", true)
        else ("", false) := by
  match err with
  | none => rfl
  | some .deadlineExceeded => rfl
  | some (.netError tmo m) =>
    cases tmo <;>
      simp only [CLIProxy.IsTimeoutError, CLIProxy.GoError.isDeadlineExceeded,
        CLIProxy.GoError.isNetTimeout, CLIProxy.GoError.message,
        CLIProxy.TimeoutTypeConnect, CLIProxy.TimeoutTypeResponseHeader,
        CLIProxy.TimeoutTypeUnknown, Bool.false_or, Bool.true_or, if_true,
        if_false, Bool.false_eq_true, cond_false, cond_true] <;>
      split_ifs <;> simp_all
  | some (.plain m) =>
    simp only [CLIProxy.IsTimeoutError, CLIProxy.GoError.isDeadlineExceeded,
      CLIProxy.GoError.isNetTimeout, CLIProxy.GoError.message,
      CLIProxy.TimeoutTypeConnect, CLIProxy.TimeoutTypeResponseHeader,
      CLIProxy.TimeoutTypeUnknown, Bool.false_or, if_false, Bool.false_eq_true]
    split_ifs <;> simp_all

/-- C7 counterexample: the claim reads a configured value of 0 as meaning "no
explicit timeout", but `GetUpstreamTimeouts` maps an explicitly configured 0
(indistinguishable in Go from an unset key) to the defaults 10 and 30, not to
a no-timeout value 0. -/
theorem getUpstreamTimeouts_zero_yields_defaults_not_no_timeout :
    CLIProxy.GetUpstreamTimeouts
        (some { proxyURL := "",
                upstreamTimeouts := { connectTimeoutSeconds := 0,
                                      responseHeaderTimeoutSeconds := 0 } }) =
      (10, 30, none) ∧ (10 : Int) ≠ 0 ∧ (30 : Int) ≠ 0 := by
  refine ⟨rfl, by decide, by decide⟩

/-- C7 (amended): `GetUpstreamTimeouts` returns connect 10 and response-header 30
when the configuration is nil; a configured value of 0 is treated as unset and
falls back to the default; a negative value for either key returns an
`InvalidTimeoutError` naming that field and value (connect checked first when
both are negative) with both returned timeouts 0. -/
theorem getUpstreamTimeouts_spec (p : String) (cts rhts : Int) :
    CLIProxy.GetUpstreamTimeouts none = (10, 30, none) ∧
    (0 ≤ cts → 0 ≤ rhts →
      CLIProxy.GetUpstreamTimeouts
          (some { proxyURL := p,
                  upstreamTimeouts := { connectTimeoutSeconds := cts,
                                        responseHeaderTimeoutSeconds := rhts } }) =
        ((if cts = 0 then 10 else cts), (if rhts = 0 then 30 else rhts), none)) ∧
    (cts < 0 →
      CLIProxy.GetUpstreamTimeouts
          (some { proxyURL := p,
                  upstreamTimeouts := { connectTimeoutSeconds := cts,
                                        responseHeaderTimeoutSeconds := rhts } }) =
        (0, 0, some { Field := "connect-timeout-seconds", Value := cts })) ∧
    (0 ≤ cts → rhts < 0 →
      CLIProxy.GetUpstreamTimeouts
          (some { proxyURL := p,
                  upstreamTimeouts := { connectTimeoutSeconds := cts,
                                        responseHeaderTimeoutSeconds := rhts } }) =
        (0, 0, some { Field := "response-header-timeout-seconds", Value := rhts })) := by
  refine ⟨rfl, ?_, ?_, ?_⟩
  · intro hc hr
    simp only [CLIProxy.GetUpstreamTimeouts]
    split_ifs <;> first | rfl | (exfalso; omega)
  · intro hc
    simp [CLIProxy.GetUpstreamTimeouts, hc]
  · intro hc hr
    simp [CLIProxy.GetUpstreamTimeouts, not_lt.mpr hc, hr]

/-- C7 witness: instantiating the characterization at concrete configurations. -/
theorem getUpstreamTimeouts_spec_witness :
    (0 : Int) ≤ 15 ∧ (0 : Int) ≤ 0 ∧ (-5 : Int) < 0 ∧
    CLIProxy.GetUpstreamTimeouts
        (some { proxyURL := "",
                upstreamTimeouts := { connectTimeoutSeconds := 15,
                                      responseHeaderTimeoutSeconds := 0 } }) =
      (15, 30, none) ∧
    CLIProxy.GetUpstreamTimeouts
        (some { proxyURL := "",
                upstreamTimeouts := { connectTimeoutSeconds := -5,
                                      responseHeaderTimeoutSeconds := 30 } }) =
      (0, 0, some { Field := "connect-timeout-seconds", Value := -5 }) := by
  refine ⟨by decide, by decide, by decide, ?_, ?_⟩
  · have h := (getUpstreamTimeouts_spec "" 15 0).2.1 (by decide) (by decide)
    simpa using h
  · have h := (getUpstreamTimeouts_spec "" (-5) 30).2.2.1 (by decide)
    simpa using h

/-- C3: for all strings origin, resolved, reason: `buildAdaptationMeta`, after
lowercasing and trimming origin and resolved, returns Decision `"none"` iff both
are empty, `"pass"` iff both are non-empty and equal, and `"downgrade"` in every
other case; the returned `VariantOrigin` and `Variant` equal the normalised
origin and resolved. -/
theorem buildAdaptationMeta_decision_characterization
    (origin resolved reason : String) :
    ((CLIProxy.buildAdaptationMeta origin resolved reason).Decision = "none" ↔
      (CLIProxy.normalizeLevel origin = "" ∧ CLIProxy.normalizeLevel resolved = "")) ∧
    ((CLIProxy.buildAdaptationMeta origin resolved reason).Decision = "pass" ↔
      (CLIProxy.normalizeLevel origin ≠ "" ∧ CLIProxy.normalizeLevel resolved ≠ "" ∧
        CLIProxy.normalizeLevel origin = CLIProxy.normalizeLevel resolved)) ∧
    ((CLIProxy.buildAdaptationMeta origin resolved reason).Decision = "downgrade" ↔
      ¬((CLIProxy.normalizeLevel origin = "" ∧ CLIProxy.normalizeLevel resolved = "") ∨
        (CLIProxy.normalizeLevel origin ≠ "" ∧ CLIProxy.normalizeLevel resolved ≠ "" ∧
          CLIProxy.normalizeLevel origin = CLIProxy.normalizeLevel resolved))) ∧
    (CLIProxy.buildAdaptationMeta origin resolved reason).VariantOrigin =
      CLIProxy.normalizeLevel origin ∧
    (CLIProxy.buildAdaptationMeta origin resolved reason).Variant =
      CLIProxy.normalizeLevel resolved := by
  unfold CLIProxy.buildAdaptationMeta
  simp only [CLIProxy.AdaptationDecisionNone, CLIProxy.AdaptationDecisionPass,
    CLIProxy.AdaptationDecisionDowngrade]
  split_ifs with h1 h2 <;> simp_all

/-- C9: `variantFromConfig` returns, per mode: for ModeLevel the lowercased
trimmed level; for ModeNone the lowercased trimmed level when non-empty, else
"none"; for ModeAuto the string "auto"; for ModeBudget the level given by
`ConvertBudgetToLevel` when it is defined, else the empty string; and the empty
string for any other mode. -/
theorem variantFromConfig_spec (level : String) (budget : Int) :
    CLIProxy.variantFromConfig { Mode := .modeLevel, Level := level, Budget := budget } =
      CLIProxy.strToLower (CLIProxy.strTrim level) ∧
    CLIProxy.variantFromConfig { Mode := .modeNone, Level := level, Budget := budget } =
      (if level = "" then "none" else CLIProxy.strToLower (CLIProxy.strTrim level)) ∧
    CLIProxy.variantFromConfig { Mode := .modeAuto, Level := level, Budget := budget } =
      "auto" ∧
    (∀ l, CLIProxy.ConvertBudgetToLevel budget = some l →
      CLIProxy.variantFromConfig { Mode := .modeBudget, Level := level, Budget := budget } = l) ∧
    (CLIProxy.ConvertBudgetToLevel budget = none →
      CLIProxy.variantFromConfig { Mode := .modeBudget, Level := level, Budget := budget } = "") ∧
    CLIProxy.variantFromConfig { Mode := .modeOther, Level := level, Budget := budget } = "" := by
  refine ⟨rfl, ?_, rfl, ?_, ?_, rfl⟩
  · by_cases h : level = "" <;> simp [CLIProxy.variantFromConfig, h]
  · intro l hl
    have hfix : CLIProxy.strToLower (CLIProxy.strTrim l) = l := by
      unfold CLIProxy.ConvertBudgetToLevel at hl
      split_ifs at hl <;> (injection hl with h; subst h; decide)
    simp [CLIProxy.variantFromConfig, hl, hfix]
  · intro hl
    simp [CLIProxy.variantFromConfig, hl]

/-- C9 witness: a budget of 2048 resolves to level "medium" and
`variantFromConfig` returns it verbatim. -/
theorem variantFromConfig_spec_witness :
    CLIProxy.ConvertBudgetToLevel 2048 = some "medium" ∧
    CLIProxy.variantFromConfig { Mode := .modeBudget, Level := "", Budget := 2048 } =
      "medium" :=
  ⟨by decide, (variantFromConfig_spec "" 2048).2.2.2.1 "medium" (by decide)⟩

/-- Helper: the xhigh downgrade target is one of high, medium, low, or empty. -/
theorem downgradeFromXHigh_cases (levels : List String) :
    CLIProxy.downgradeFromXHigh levels = "high" ∨
    CLIProxy.downgradeFromXHigh levels = "medium" ∨
    CLIProxy.downgradeFromXHigh levels = "low" ∨
    CLIProxy.downgradeFromXHigh levels = "" := by
  unfold CLIProxy.downgradeFromXHigh
  split_ifs <;> simp

/-- C1: for any payload whose base model is registered with a ThinkingSupport
descriptor lacking xhigh (but offering at least one of low/medium/high),
requesting level xhigh — by suffix or by in-payload reasoning_effort — makes
`ApplyThinkingWithMeta` succeed with meta VariantOrigin "xhigh", Variant equal
to the highest level at most xhigh in the descriptor levels (prefer high, else
medium, else low), Decision "downgrade", and an output payload whose
reasoning_effort equals that resolved level. -/
theorem applyThinkingWithMeta_downgradesUnsupportedXHigh
    (lookup : String → Option CLIProxy.ModelInfo) (payload : CLIProxy.OpenAIPayload)
    (modelWithSuffix : String) (info : CLIProxy.ModelInfo)
    (ts : CLIProxy.ThinkingSupport)
    (hreq : CLIProxy.requestedLevel modelWithSuffix payload = some "xhigh")
    (hlookup : lookup (CLIProxy.ParseSuffix modelWithSuffix).ModelName = some info)
    (hth : info.Thinking = some ts)
    (hnox : ts.Levels.contains "xhigh" = false)
    (hsome : CLIProxy.downgradeFromXHigh ts.Levels ≠ "") :
    CLIProxy.ApplyThinkingWithMeta lookup payload modelWithSuffix =
      .ok ({ payload with
              reasoningEffort := some (CLIProxy.downgradeFromXHigh ts.Levels) },
           { VariantOrigin := "xhigh",
             Variant := CLIProxy.downgradeFromXHigh ts.Levels,
             Decision := CLIProxy.AdaptationDecisionDowngrade,
             Reason := "unsupported_by_model" }) := by
  unfold CLIProxy.ApplyThinkingWithMeta
  simp only [hreq]
  simp only [hlookup, hth]
  simp only [hnox, Bool.false_eq_true, if_false, if_true]
  rcases downgradeFromXHigh_cases ts.Levels with h | h | h | h <;>
    rw [h] <;>
    first
      | (exact absurd h hsome)
      | (simp [CLIProxy.setOpenAIEffort, CLIProxy.buildAdaptationMeta,
          CLIProxy.normalizeLevel, CLIProxy.strToLower, CLIProxy.strTrim,
          CLIProxy.isSpaceChar, CLIProxy.AdaptationDecisionDowngrade])

/-- C1 witness: scenario S2 — descriptor levels low and high without xhigh,
request "meta-subset-model(xhigh)": the engine succeeds with origin xhigh,
variant high, decision downgrade, and the payload carries
reasoning_effort high. -/
theorem applyThinkingWithMeta_downgradesUnsupportedXHigh_witness :
    CLIProxy.ApplyThinkingWithMeta
        (fun id => if id = "meta-subset-model" then
            some { ID := "meta-subset-model",
                   Thinking := some { Levels := ["low", "high"],
                                      ZeroAllowed := false } }
          else none)
        { model := "meta-subset-model" } "meta-subset-model(xhigh)" =
      .ok ({ model := "meta-subset-model", reasoningEffort := some "high" },
           { VariantOrigin := "xhigh", Variant := "high",
             Decision := "downgrade", Reason := "unsupported_by_model" }) := by
  have h := applyThinkingWithMeta_downgradesUnsupportedXHigh
    (fun id => if id = "meta-subset-model" then
        some { ID := "meta-subset-model",
               Thinking := some { Levels := ["low", "high"], ZeroAllowed := false } }
      else none)
    { model := "meta-subset-model" } "meta-subset-model(xhigh)"
    { ID := "meta-subset-model",
      Thinking := some { Levels := ["low", "high"], ZeroAllowed := false } }
    { Levels := ["low", "high"], ZeroAllowed := false }
    (by decide) (by decide) rfl (by decide) (by decide)
  exact h

/-- C2 counterexample: an `Execute` that fails upstream after a successful
downgrade adaptation (model "gpt-5(xhigh)" against a descriptor with levels
low and high) publishes a failed record whose variant is the resolved "high",
not the empty string the claim requires for every failing Execute. -/
theorem execute_upstreamFailure_recordKeepsResolvedVariant :
    (CLIProxy.Execute
        (fun id => if id = "gpt-5" then
            some { ID := "gpt-5", Thinking := some { Levels := ["low", "high"] } }
          else none)
        "aistudio" "gpt-5(xhigh)" { model := "gpt-5" } (.error "upstream failure")).1 =
      .error "upstream failure" ∧
    (CLIProxy.Execute
        (fun id => if id = "gpt-5" then
            some { ID := "gpt-5", Thinking := some { Levels := ["low", "high"] } }
          else none)
        "aistudio" "gpt-5(xhigh)" { model := "gpt-5" } (.error "upstream failure")).2 =
      { provider := "aistudio", model := "gpt-5", variantOrigin := "xhigh",
        variant := "high", failed := true } ∧
    "high" ≠ "" := by
  exact ⟨rfl, by decide, by decide⟩

/-- C2 (amended): whenever `Execute` fails during the adaptation step after a
variant suffix was parsed from the requested model, the published UsageRecord
has failed true, variantOrigin equal to the suffix level, and an empty
variant; a failure after successful adaptation instead carries the resolved
variant. -/
theorem execute_adaptationFailure_publishesOriginOnly
    (lookup : String → Option CLIProxy.ModelInfo) (provider modelWithSuffix : String)
    (payload : CLIProxy.OpenAIPayload) (upstream : Except String Unit) (lvl : String)
    (e : CLIProxy.EngineError)
    (hsuffix : (CLIProxy.ParseSuffix modelWithSuffix).Level = some lvl)
    (herr : CLIProxy.ApplyThinkingWithMeta lookup payload modelWithSuffix = .error e) :
    (CLIProxy.Execute lookup provider modelWithSuffix payload upstream).1 =
      .error "adaptation failed" ∧
    (CLIProxy.Execute lookup provider modelWithSuffix payload upstream).2 =
      { provider := provider,
        model := (CLIProxy.ParseSuffix modelWithSuffix).ModelName,
        variantOrigin := lvl, variant := "", failed := true } := by
  have hreq : CLIProxy.requestedLevel modelWithSuffix payload = some lvl := by
    unfold CLIProxy.requestedLevel
    rw [hsuffix]
  unfold CLIProxy.Execute CLIProxy.applyThinkingWithUsageMeta
  simp only [hreq, herr, CLIProxy.setThinkingVariant, CLIProxy.newUsageReporter,
    Option.getD_some]
  exact ⟨trivial, trivial⟩

/-- C2 witness: a user-defined model with unknown level "ultra" — adaptation
fails, and the published record carries origin "ultra", empty variant and the
failed flag. -/
theorem execute_adaptationFailure_publishesOriginOnly_witness :
    (CLIProxy.Execute
        (fun id => if id = "m" then some { ID := "m", UserDefined := true } else none)
        "kiro" "m(ultra)" { model := "m" } (.ok ())).1 = .error "adaptation failed" ∧
    (CLIProxy.Execute
        (fun id => if id = "m" then some { ID := "m", UserDefined := true } else none)
        "kiro" "m(ultra)" { model := "m" } (.ok ())).2 =
      { provider := "kiro", model := "m", variantOrigin := "ultra",
        variant := "", failed := true } := by
  have h := execute_adaptationFailure_publishesOriginOnly
    (fun id => if id = "m" then some { ID := "m", UserDefined := true } else none)
    "kiro" "m(ultra)" { model := "m" } (.ok ()) "ultra"
    (.unknownLevel "ultra") (by decide) rfl
  exact h

/-- C4: after a first Kiro translation captures variant origin "xhigh" on a
reporter, a follow-up call on the same path with a nil reporter leaves that
captured reporter untouched (the follow-up carries no reporter at all), while
"no reporter" remains distinguished from "reporter with empty variant": the
same setter applied to the captured reporter with empty values would change
it. -/
theorem kiroFollowupNilReporter_preservesVariant
    (lookup lookup2 : String → Option CLIProxy.ModelInfo)
    (p1 p2 : CLIProxy.OpenAIPayload) (r : CLIProxy.UsageReporter) :
    ∃ r1 : CLIProxy.UsageReporter,
      (CLIProxy.translateKiroRequestWithThinkingMeta lookup p1 "gpt-5(xhigh)"
          (some r)).2 = some r1 ∧
      r1.variantOrigin = "xhigh" ∧
      (CLIProxy.translateKiroRequestWithThinkingMeta lookup2 p2 "gpt-5" none).2 =
        none ∧
      CLIProxy.setThinkingVariant (some r1) "" "" ≠ some r1 := by
  have hreq : CLIProxy.requestedLevel "gpt-5(xhigh)" p1 = some "xhigh" := by
    unfold CLIProxy.requestedLevel
    rfl
  have hnil : ∀ o v, CLIProxy.setThinkingVariant none o v = none := fun _ _ => rfl
  unfold CLIProxy.translateKiroRequestWithThinkingMeta CLIProxy.applyThinkingWithUsageMeta
  cases h : CLIProxy.ApplyThinkingWithMeta lookup p1 "gpt-5(xhigh)" with
  | ok val =>
    refine ⟨{ r with variantOrigin := "xhigh", variant := val.2.Variant }, ?_, rfl, ?_, ?_⟩
    · simp [hreq, h, CLIProxy.setThinkingVariant]
    · cases h2 : CLIProxy.ApplyThinkingWithMeta lookup2 p2 "gpt-5" <;> simp [h2, hnil]
    · simp [CLIProxy.setThinkingVariant]
  | error e =>
    refine ⟨{ r with variantOrigin := "xhigh", variant := "" }, ?_, rfl, ?_, ?_⟩
    · simp [hreq, h, CLIProxy.setThinkingVariant]
    · cases h2 : CLIProxy.ApplyThinkingWithMeta lookup2 p2 "gpt-5" <;> simp [h2, hnil]
    · simp [CLIProxy.setThinkingVariant]

/-- Helper: a lookup immediately after an insertion at the same key finds the
inserted client. -/
theorem cacheLookup_cacheInsert_self (cache : List (String × CLIProxy.HTTPClient))
    (key : String) (client : CLIProxy.HTTPClient) :
    CLIProxy.cacheLookup (CLIProxy.cacheInsert cache key client) key = some client := by
  simp [CLIProxy.cacheLookup, CLIProxy.cacheInsert]

/-- Helper: on a cache hit the factory returns the cached client (wrapped with
the per-request timeout when positive) and leaves the state unchanged. -/
theorem newProxyAwareHTTPClient_hit (st : CLIProxy.FactoryState)
    (rt : Option CLIProxy.Transport) (cfg : Option CLIProxy.Config)
    (auth : Option CLIProxy.Auth) (t : Int) (cached : CLIProxy.HTTPClient)
    (h : CLIProxy.cacheLookup st.cache (CLIProxy.factoryCacheKey cfg auth) =
      some cached) :
    CLIProxy.newProxyAwareHTTPClient st rt cfg auth t =
      (if t > 0 then { transport := cached.transport, timeout := t } else cached, st) := by
  unfold CLIProxy.newProxyAwareHTTPClient
  simp only [h]
  split_ifs <;> rfl

/-- Helper: on a cache miss the factory stores the returned client in the
cache under the request's key. -/
theorem newProxyAwareHTTPClient_miss_caches (st : CLIProxy.FactoryState)
    (rt : Option CLIProxy.Transport) (cfg : Option CLIProxy.Config)
    (auth : Option CLIProxy.Auth) (t : Int)
    (h : CLIProxy.cacheLookup st.cache (CLIProxy.factoryCacheKey cfg auth) = none) :
    ((CLIProxy.newProxyAwareHTTPClient st rt cfg auth t).2).cache =
      CLIProxy.cacheInsert st.cache (CLIProxy.factoryCacheKey cfg auth)
        (CLIProxy.newProxyAwareHTTPClient st rt cfg auth t).1 := by
  unfold CLIProxy.newProxyAwareHTTPClient
  simp only [h]
  cases hb : (CLIProxy.buildProxyTransport st.nextId (CLIProxy.factoryProxyURL cfg auth)
      (CLIProxy.effectiveUpstreamTimeouts cfg).1
      (CLIProxy.effectiveUpstreamTimeouts cfg).2).1 <;>
    split_ifs <;>
    simp [hb, CLIProxy.factoryFallback]

/-- Helper: a cache-miss call with per-request timeout 0 produces a client
whose timeout is unset. -/
theorem newProxyAwareHTTPClient_miss_timeout0 (st : CLIProxy.FactoryState)
    (rt : Option CLIProxy.Transport) (cfg : Option CLIProxy.Config)
    (auth : Option CLIProxy.Auth)
    (h : CLIProxy.cacheLookup st.cache (CLIProxy.factoryCacheKey cfg auth) = none) :
    ((CLIProxy.newProxyAwareHTTPClient st rt cfg auth 0).1).timeout = 0 := by
  unfold CLIProxy.newProxyAwareHTTPClient
  simp only [h]
  cases hb : (CLIProxy.buildProxyTransport st.nextId (CLIProxy.factoryProxyURL cfg auth)
      (CLIProxy.effectiveUpstreamTimeouts cfg).1
      (CLIProxy.effectiveUpstreamTimeouts cfg).2).1 <;>
    split_ifs <;>
    simp [hb, CLIProxy.factoryFallback]

/-- C5: two factory calls with identical (proxy-url, connect, response-header)
triples — here, identical configuration and auth, for any per-request timeouts
and context round trippers — return clients sharing the same transport: the
second call finds the first call's client in the cache under the
"proxyURL|connect|responseHeader" key and reuses its transport. -/
theorem newProxyAwareHTTPClient_sharesTransport (st : CLIProxy.FactoryState)
    (rt1 rt2 : Option CLIProxy.Transport) (cfg : Option CLIProxy.Config)
    (auth : Option CLIProxy.Auth) (t1 t2 : Int) :
    ((CLIProxy.newProxyAwareHTTPClient
        (CLIProxy.newProxyAwareHTTPClient st rt1 cfg auth t1).2
        rt2 cfg auth t2).1).transport =
      ((CLIProxy.newProxyAwareHTTPClient st rt1 cfg auth t1).1).transport := by
  cases h : CLIProxy.cacheLookup st.cache (CLIProxy.factoryCacheKey cfg auth) with
  | some cached =>
    rw [newProxyAwareHTTPClient_hit st rt1 cfg auth t1 cached h]
    dsimp only
    rw [newProxyAwareHTTPClient_hit st rt2 cfg auth t2 cached h]
    dsimp only
    split_ifs <;> rfl
  | none =>
    have hcache := newProxyAwareHTTPClient_miss_caches st rt1 cfg auth t1 h
    have h2 : CLIProxy.cacheLookup
        ((CLIProxy.newProxyAwareHTTPClient st rt1 cfg auth t1).2).cache
        (CLIProxy.factoryCacheKey cfg auth) =
        some (CLIProxy.newProxyAwareHTTPClient st rt1 cfg auth t1).1 := by
      rw [hcache]
      exact cacheLookup_cacheInsert_self _ _ _
    rw [newProxyAwareHTTPClient_hit _ rt2 cfg auth t2 _ h2]
    dsimp only
    split_ifs <;> rfl

/-- C6 counterexample: a cache-miss call with per-request timeout 5 stores a
client carrying that timeout; the subsequent call with timeout 0 returns the
cached client, whose Timeout is 5 rather than unset. -/
theorem newProxyAwareHTTPClient_cacheMissStoresTimeout :
    ((CLIProxy.newProxyAwareHTTPClient
        (CLIProxy.newProxyAwareHTTPClient { nextId := 0, cache := [] }
            none none none 5).2
        none none none 0).1).timeout = 5 ∧ (5 : Int) ≠ 0 :=
  ⟨rfl, by decide⟩

/-- C6 (amended): a call that hits the cache with a positive per-request
timeout returns a thin wrapper carrying that timeout over the cached client's
transport and leaves the state unchanged; and when the cache entry for the key
was created by a call with timeout 0, a subsequent call with timeout 0 returns
a client whose Timeout is unset. -/
theorem newProxyAwareHTTPClient_timeoutOverlay (st : CLIProxy.FactoryState)
    (rt1 rt2 : Option CLIProxy.Transport) (cfg : Option CLIProxy.Config)
    (auth : Option CLIProxy.Auth) (t : Int) :
    (∀ cached, CLIProxy.cacheLookup st.cache (CLIProxy.factoryCacheKey cfg auth) =
        some cached → t > 0 →
      CLIProxy.newProxyAwareHTTPClient st rt1 cfg auth t =
        ({ transport := cached.transport, timeout := t }, st)) ∧
    (CLIProxy.cacheLookup st.cache (CLIProxy.factoryCacheKey cfg auth) = none →
      ((CLIProxy.newProxyAwareHTTPClient
          (CLIProxy.newProxyAwareHTTPClient st rt1 cfg auth 0).2
          rt2 cfg auth 0).1).timeout = 0) := by
  constructor
  · intro cached hc ht
    rw [newProxyAwareHTTPClient_hit st rt1 cfg auth t cached hc, if_pos ht]
  · intro h
    have hcache := newProxyAwareHTTPClient_miss_caches st rt1 cfg auth 0 h
    have ht0 := newProxyAwareHTTPClient_miss_timeout0 st rt1 cfg auth h
    have h2 : CLIProxy.cacheLookup
        ((CLIProxy.newProxyAwareHTTPClient st rt1 cfg auth 0).2).cache
        (CLIProxy.factoryCacheKey cfg auth) =
        some (CLIProxy.newProxyAwareHTTPClient st rt1 cfg auth 0).1 := by
      rw [hcache]
      exact cacheLookup_cacheInsert_self _ _ _
    rw [newProxyAwareHTTPClient_hit _ rt2 cfg auth 0 _ h2]
    simpa using ht0

/-- C6 witness: a cache preloaded at key "|10|30" with a timeout-free client —
a call with timeout 7 returns the thin wrapper and leaves the state unchanged;
and starting from an empty cache, two timeout-0 calls end with an unset
timeout. -/
theorem newProxyAwareHTTPClient_timeoutOverlay_witness :
    CLIProxy.cacheLookup
        [("|10|30", { transport := { id := 0 }, timeout := 0 : CLIProxy.HTTPClient })]
        (CLIProxy.factoryCacheKey none none) =
      some { transport := { id := 0 }, timeout := 0 } ∧
    (7 : Int) > 0 ∧
    CLIProxy.newProxyAwareHTTPClient
        { nextId := 1,
          cache := [("|10|30", { transport := { id := 0 }, timeout := 0 })] }
        none none none 7 =
      ({ transport := { id := 0 }, timeout := 7 },
       { nextId := 1,
         cache := [("|10|30", { transport := { id := 0 }, timeout := 0 })] }) ∧
    ((CLIProxy.newProxyAwareHTTPClient
        (CLIProxy.newProxyAwareHTTPClient { nextId := 0, cache := [] }
            none none none 0).2
        none none none 0).1).timeout = 0 := by
  refine ⟨by decide, by decide, ?_, ?_⟩
  · exact (newProxyAwareHTTPClient_timeoutOverlay
        { nextId := 1,
          cache := [("|10|30", { transport := { id := 0 }, timeout := 0 })] }
        none none none none 7).1
      { transport := { id := 0 }, timeout := 0 } (by decide) (by decide)
  · exact (newProxyAwareHTTPClient_timeoutOverlay
        { nextId := 0, cache := [] } none none none none 0).2 (by decide)

/-- C10: an invalid (negative) upstream-timeout configuration is never
propagated by the factory: the effective timeouts fall back to the defaults
(connect 10, response-header 30), and the factory behaves exactly as for a
configuration with the same proxy URL and unset timeouts, returning a client
in every case (the embedding is total). -/
theorem newProxyAwareHTTPClient_invalidTimeoutsFallBackToDefaults
    (st : CLIProxy.FactoryState) (rt : Option CLIProxy.Transport)
    (auth : Option CLIProxy.Auth) (t : Int) (c : CLIProxy.Config)
    (e : CLIProxy.InvalidTimeoutError)
    (herr : CLIProxy.GetUpstreamTimeouts (some c.sdkConfig) = (0, 0, some e)) :
    CLIProxy.effectiveUpstreamTimeouts (some c) = (10, 30) ∧
    CLIProxy.newProxyAwareHTTPClient st rt (some c) auth t =
      CLIProxy.newProxyAwareHTTPClient st rt
        (some { sdkConfig := { proxyURL := c.sdkConfig.proxyURL } }) auth t := by
  have hm : Option.map (fun x : CLIProxy.Config => x.sdkConfig) (some c) =
      some c.sdkConfig := rfl
  have heff : CLIProxy.effectiveUpstreamTimeouts (some c) = (10, 30) := by
    unfold CLIProxy.effectiveUpstreamTimeouts
    rw [hm, herr]
    rfl
  have heff2 : CLIProxy.effectiveUpstreamTimeouts
      (some { sdkConfig := { proxyURL := c.sdkConfig.proxyURL } }) = (10, 30) := rfl
  have hproxy : CLIProxy.factoryProxyURL (some c) auth =
      CLIProxy.factoryProxyURL
        (some { sdkConfig := { proxyURL := c.sdkConfig.proxyURL } }) auth := rfl
  have hkey : CLIProxy.factoryCacheKey (some c) auth =
      CLIProxy.factoryCacheKey
        (some { sdkConfig := { proxyURL := c.sdkConfig.proxyURL } }) auth := by
    unfold CLIProxy.factoryCacheKey
    rw [heff, heff2, hproxy]
  refine ⟨heff, ?_⟩
  unfold CLIProxy.newProxyAwareHTTPClient
  rw [heff, heff2, hproxy, hkey]

/-- C10 witness: a configuration with connect-timeout -5 — `GetUpstreamTimeouts`
reports the error, yet the factory uses the defaults and behaves as with unset
timeouts. -/
theorem newProxyAwareHTTPClient_invalidTimeoutsFallBackToDefaults_witness :
    CLIProxy.GetUpstreamTimeouts
        (some { proxyURL := "",
                upstreamTimeouts := { connectTimeoutSeconds := -5,
                                      responseHeaderTimeoutSeconds := 30 } }) =
      (0, 0, some { Field := "connect-timeout-seconds", Value := -5 }) ∧
    CLIProxy.effectiveUpstreamTimeouts
        (some { sdkConfig := { proxyURL := "",
                               upstreamTimeouts := { connectTimeoutSeconds := -5,
                                                     responseHeaderTimeoutSeconds := 30 } } }) =
      (10, 30) ∧
    CLIProxy.newProxyAwareHTTPClient { nextId := 0, cache := [] } none
        (some { sdkConfig := { proxyURL := "",
                               upstreamTimeouts := { connectTimeoutSeconds := -5,
                                                     responseHeaderTimeoutSeconds := 30 } } })
        none 0 =
      CLIProxy.newProxyAwareHTTPClient { nextId := 0, cache := [] } none
        (some { sdkConfig := { proxyURL := "" } }) none 0 := by
  have h := newProxyAwareHTTPClient_invalidTimeoutsFallBackToDefaults
    { nextId := 0, cache := [] } none none 0
    { sdkConfig := { proxyURL := "",
                     upstreamTimeouts := { connectTimeoutSeconds := -5,
                                           responseHeaderTimeoutSeconds := 30 } } }
    { Field := "connect-timeout-seconds", Value := -5 } (by decide)
  exact ⟨by decide, h.1, h.2⟩
